import Mathlib

/-!
Verification development for the question-generation pipeline of the aqbs
repository.  The Python sources under src/ are shallowly embedded below:
pure helpers become Lean functions, the database-backed job record becomes an
explicit state structure, exceptions become Except values, and the external
collaborators (PDF extraction, the LLM providers, the wall clock and the
runtime-configurable settings) become an explicit environment record.
-/

namespace AQBS

/-! ## Python string primitives (str.strip, slices, find/rfind, `in`) -/

/-- Whitespace characters stripped by Python's str.strip(). -/
def pySpace (c : Char) : Bool :=
  c = ' ' || c = '\t' || c = '\n' || c = '\r' || c = '\x0b' || c = '\x0c'

/-- Drop leading Python whitespace. -/
def dropLeadingWs : List Char → List Char
  | [] => []
  | c :: rest => if pySpace c then dropLeadingWs rest else c :: rest

/-- Python str.strip(): remove leading and trailing whitespace. -/
def pyStrip (l : List Char) : List Char :=
  (dropLeadingWs (dropLeadingWs l.reverse).reverse)

/-- Does the pattern p occur at the front of l? -/
def startsWithL : List Char → List Char → Bool
  | _, [] => true
  | [], _ :: _ => false
  | a :: as, b :: bs => a = b && startsWithL as bs

/-- Does l end with pattern p? -/
def endsWithL (l p : List Char) : Bool :=
  startsWithL l.reverse p.reverse

/-- Drop the last n characters (Python s[:-n] when n ≤ len). -/
def dropLastN (l : List Char) (n : Nat) : List Char :=
  l.take (l.length - n)

/-- Adjust one Python slice index to an absolute position in [0, n]. -/
def pyAdjustIdx (i : Int) (n : Nat) : Nat :=
  if i < 0 then (max 0 ((n : Int) + i)).toNat else (min i (n : Int)).toNat

/-- Python slice l[a:b] with full negative-index and clamping semantics. -/
def pySlice (l : List Char) (a b : Int) : List Char :=
  (l.take (pyAdjustIdx b l.length)).drop (pyAdjustIdx a l.length)

/-- Python str.find(ch): index of first occurrence, or -1. -/
def pyFindChar (l : List Char) (c : Char) : Int :=
  go l 0
where
  go : List Char → Nat → Int
    | [], _ => -1
    | d :: rest, i => if d = c then (i : Int) else go rest (i + 1)

/-- Python sub in s: does sub occur anywhere in l? -/
def containsSub (l sub : List Char) : Bool :=
  (List.range (l.length + 1)).any (fun i => startsWithL (l.drop i) sub)

/-- Python str.rfind(sub, a, b): highest index i with a' ≤ i, i + |sub| ≤ b'
and a match at i (indices adjusted like slices); -1 when there is none. -/
def pyRfind (l sub : List Char) (a b : Int) : Int :=
  let a' := pyAdjustIdx a l.length
  let b' := pyAdjustIdx b l.length
  match ((List.range (b' + 1)).filter
      (fun i => decide (a' ≤ i) && decide (i + sub.length ≤ b') &&
        startsWithL (l.drop i) sub)).getLast? with
  | some i => (i : Int)
  | none => -1

/-! ## JSON values and a json.loads parser

The source calls Python's json.loads; we embed a standard strict JSON
parser (objects, arrays, strings with escapes, numbers, literals).  Numbers
are kept as their lexemes, which is enough for every input the pipeline
claims touch.  Duplicate object keys overwrite in place, as in Python. -/

mutual

inductive Json where
  | null : Json
  | bool (b : Bool) : Json
  | num (lexeme : String) : Json
  | str (s : String) : Json
  | arr (xs : JsonArr) : Json
  | obj (kvs : JsonObj) : Json
deriving DecidableEq, Repr

inductive JsonArr where
  | nil : JsonArr
  | cons (hd : Json) (tl : JsonArr) : JsonArr
deriving DecidableEq, Repr

inductive JsonObj where
  | nil : JsonObj
  | cons (k : String) (v : Json) (tl : JsonObj) : JsonObj
deriving DecidableEq, Repr

end

/-- View a JSON array as a Lean list. -/
def JsonArr.toList : JsonArr → List Json
  | .nil => []
  | .cons hd tl => hd :: tl.toList

/-- Build a JSON array from a Lean list. -/
def JsonArr.ofList : List Json → JsonArr
  | [] => .nil
  | hd :: tl => .cons hd (JsonArr.ofList tl)

/-- Build a JSON object from a key-value list. -/
def JsonObj.ofList : List (String × Json) → JsonObj
  | [] => .nil
  | (k, v) :: tl => .cons k v (JsonObj.ofList tl)

/-- Python dict assignment d[k] = v: overwrite in place or append. -/
def JsonObj.insert : JsonObj → String → Json → JsonObj
  | .nil, k, v => .cons k v .nil
  | .cons k0 v0 rest, k, v =>
    if k0 = k then .cons k0 v rest else .cons k0 v0 (rest.insert k v)

/-- Python dict lookup d[k] as an Option. -/
def JsonObj.lookup : JsonObj → String → Option Json
  | .nil, _ => none
  | .cons k0 v0 rest, k => if k0 = k then some v0 else rest.lookup k

/-- JSON structural whitespace. -/
def jsonWs (c : Char) : Bool :=
  c = ' ' || c = '\t' || c = '\n' || c = '\r'

/-- Skip JSON whitespace. -/
def skipWs : List Char → List Char
  | [] => []
  | c :: rest => if jsonWs c then skipWs rest else c :: rest

/-- Hexadecimal digit value, by code point: 0-9, a-f, A-F. -/
def hexVal (c : Char) : Option Nat :=
  let n := c.toNat
  if 48 ≤ n && n ≤ 57 then some (n - 48)
  else if 97 ≤ n && n ≤ 102 then some (n - 87)
  else if 65 ≤ n && n ≤ 70 then some (n - 55)
  else none

/-- Body of a JSON string after the opening quote: returns content and the
rest after the closing quote.  Strict mode: unescaped control characters are
rejected, escapes are the standard eight plus unicode. -/
def parseStrBody : Nat → List Char → Option (List Char × List Char)
  | 0, _ => none
  | _ + 1, [] => none
  | fuel + 1, c :: rest =>
    if c = '"' then some ([], rest)
    else if c = '\\' then
      match rest with
      | [] => none
      | e :: rest2 =>
        let cont (ch : Char) (r : List Char) : Option (List Char × List Char) :=
          match parseStrBody fuel r with
          | some (s, r2) => some (ch :: s, r2)
          | none => none
        if e = '"' then cont '"' rest2
        else if e = '\\' then cont '\\' rest2
        else if e = '/' then cont '/' rest2
        else if e = 'b' then cont '\x08' rest2
        else if e = 'f' then cont '\x0c' rest2
        else if e = 'n' then cont '\n' rest2
        else if e = 'r' then cont '\r' rest2
        else if e = 't' then cont '\t' rest2
        else if e = 'u' then
          match rest2 with
          | h1 :: h2 :: h3 :: h4 :: rest3 =>
            match hexVal h1, hexVal h2, hexVal h3, hexVal h4 with
            | some a, some b, some cc, some d =>
              cont (Char.ofNat (((a * 16 + b) * 16 + cc) * 16 + d)) rest3
            | _, _, _, _ => none
          | _ => none
        else none
    else if c.toNat < 32 then none
    else
      match parseStrBody fuel rest with
      | some (s, r2) => some (c :: s, r2)
      | none => none

/-- One or more decimal digits. -/
def takeDigits (l : List Char) : List Char × List Char :=
  match l with
  | [] => ([], [])
  | c :: rest =>
    if c.isDigit then
      let (ds, r) := takeDigits rest
      (c :: ds, r)
  else ([], l)

/-- JSON number grammar; the lexeme is preserved. -/
def parseNumber (l : List Char) : Option (Json × List Char) :=
  let (sign, l1) :=
    match l with
    | '-' :: rest => (['-'], rest)
    | _ => (([] : List Char), l)
  match l1 with
  | [] => none
  | c :: _ =>
    if ¬ c.isDigit then none
    else
      let (intPart, l2) :=
        match l1 with
        | '0' :: rest => (['0'], rest)
        | _ => takeDigits l1
      let (fracPart, l3) :=
        match l2 with
        | '.' :: rest =>
          let (ds, r) := takeDigits rest
          if ds = [] then ([], l2) else ('.' :: ds, r)
        | _ => ([], l2)
      let badFrac : Bool :=
        match l2 with
        | '.' :: rest => (takeDigits rest).1 = []
        | _ => false
      let (expPart, l4) :=
        match l3 with
        | 'e' :: rest =>
          let (sg, r0) :=
            match rest with
            | '+' :: r => (['+'], r)
            | '-' :: r => (['-'], r)
            | _ => (([] : List Char), rest)
          let (ds, r) := takeDigits r0
          if ds = [] then ([], l3) else ('e' :: (sg ++ ds), r)
        | 'E' :: rest =>
          let (sg, r0) :=
            match rest with
            | '+' :: r => (['+'], r)
            | '-' :: r => (['-'], r)
            | _ => (([] : List Char), rest)
          let (ds, r) := takeDigits r0
          if ds = [] then ([], l3) else ('E' :: (sg ++ ds), r)
        | _ => ([], l3)
      if badFrac then none
      else some (Json.num (String.mk (sign ++ intPart ++ fracPart ++ expPart)), l4)

mutual

/-- Parse one JSON value (fuel-indexed recursion). -/
def parseValue : Nat → List Char → Option (Json × List Char)
  | 0, _ => none
  | fuel + 1, l =>
    match skipWs l with
    | [] => none
    | c :: rest =>
      if c = '\x7b' then parseObjBody fuel rest
      else if c = '[' then parseArrBody fuel rest
      else if c = '"' then
        match parseStrBody (fuel + 1) rest with
        | some (s, r) => some (Json.str (String.mk s), r)
        | none => none
      else if c = 't' then
        match rest with
        | 'r' :: 'u' :: 'e' :: r => some (Json.bool true, r)
        | _ => none
      else if c = 'f' then
        match rest with
        | 'a' :: 'l' :: 's' :: 'e' :: r => some (Json.bool false, r)
        | _ => none
      else if c = 'n' then
        match rest with
        | 'u' :: 'l' :: 'l' :: r => some (Json.null, r)
        | _ => none
      else if c = '-' || c.isDigit then parseNumber (c :: rest)
      else none

/-- Object members after the opening brace. -/
def parseObjBody : Nat → List Char → Option (Json × List Char)
  | 0, _ => none
  | fuel + 1, l =>
    match skipWs l with
    | '\x7d' :: r => some (Json.obj .nil, r)
    | l' => parseMembers fuel l' .nil

/-- Non-empty member list of an object. -/
def parseMembers : Nat → List Char → JsonObj → Option (Json × List Char)
  | 0, _, _ => none
  | fuel + 1, l, acc =>
    match skipWs l with
    | '"' :: r =>
      match parseStrBody (fuel + 1) r with
      | none => none
      | some (k, r1) =>
        match skipWs r1 with
        | ':' :: r2 =>
          match parseValue fuel r2 with
          | none => none
          | some (v, r3) =>
            let acc' := acc.insert (String.mk k) v
            match skipWs r3 with
            | ',' :: r4 => parseMembers fuel r4 acc'
            | '\x7d' :: r4 => some (Json.obj acc', r4)
            | _ => none
        | _ => none
    | _ => none

/-- Array elements after the opening bracket. -/
def parseArrBody : Nat → List Char → Option (Json × List Char)
  | 0, _ => none
  | fuel + 1, l =>
    match skipWs l with
    | ']' :: r => some (Json.arr .nil, r)
    | l' => parseElems fuel l' []

/-- Non-empty element list of an array. -/
def parseElems : Nat → List Char → List Json → Option (Json × List Char)
  | 0, _, _ => none
  | fuel + 1, l, acc =>
    match parseValue fuel l with
    | none => none
    | some (v, r) =>
      match skipWs r with
      | ',' :: r2 => parseElems fuel r2 (acc ++ [v])
      | ']' :: r2 => some (Json.arr (JsonArr.ofList (acc ++ [v])), r2)
      | _ => none

end

/-- Python json.loads: parse a complete document, rejecting trailing data.
none models a raised json.JSONDecodeError. -/
def jsonLoads (s : String) : Option Json :=
  match parseValue (4 * s.length + 16) s.data with
  | some (v, rest) => if skipWs rest = [] then some v else none
  | none => none

/-! ## Response normalization: the parse phase of LLMService.generate_questions
(src/ml/inference/llm_service.py lines 92-133). -/

/-- The brace-depth scan of llm_service.generate_questions: walk the text,
increment depth on every left brace and decrement on every right brace
(string literals are not tracked), and return the index of the right brace
at which depth reaches zero, or -1.  depth is an Int, as in Python. -/
def braceScanGo : List Char → Nat → Int → Int
  | [], _, _ => -1
  | c :: rest, i, depth =>
    if c = '\x7b' then braceScanGo rest (i + 1) (depth + 1)
    else if c = '\x7d' then
      let d := depth - 1
      if d = 0 then (i : Int) else braceScanGo rest (i + 1) d
    else braceScanGo rest (i + 1) depth

/-- json_end of the normalizer's brace-counting loop. -/
def braceScan (l : List Char) : Int :=
  braceScanGo l 0 0

/-- The recovery-and-parse pipeline applied to a raw model response in
LLMService.generate_questions: strip whitespace, strip code-fence markers,
cut everything before the first left brace, truncate at the position where
brace depth returns to zero, then json.loads the remainder.  An error models
the raised ValueError (the caught json.JSONDecodeError). -/
def llmParse (response : String) : Except String Json :=
  let r0 := pyStrip response.data
  let r1 := if startsWithL r0 ("```json".data) then r0.drop 7 else r0
  let r2 := if startsWithL r1 ("```".data) then r1.drop 3 else r1
  let r3 := if endsWithL r2 ("```".data) then dropLastN r2 3 else r2
  let r4 := pyStrip r3
  let jsonStart := pyFindChar r4 '\x7b'
  let r5 := if jsonStart > 0 then r4.drop jsonStart.toNat else r4
  let jsonEnd := braceScan r5
  let r6 := if jsonEnd ≠ -1 then r5.take (jsonEnd.toNat + 1) else r5
  match jsonLoads (String.mk r6) with
  | some v => Except.ok v
  | none => Except.error "Invalid JSON response from LLM"

/-! ## Text chunking: ExtractionService.chunk_text
(src/backend/services/extraction_service.py lines 86-134).

The Python while-loop has no a-priori termination measure, so the loop is
embedded with explicit fuel: a none result means the loop was still running
after the given number of iterations. -/

/-- One-or-more iterations of the chunk_text while-loop.  start and the
window bounds are Ints, exactly as in Python (start can become negative via
end - overlap). -/
def chunkLoop (text : List Char) (maxSize overlap : Int) :
    Nat → Int → List String → Option (List String)
  | 0, _, _ => none
  | fuel + 1, start, chunks =>
    if start < (text.length : Int) then
      let end0 := start + maxSize
      let endF :=
        if end0 < (text.length : Int) then
          let pb := pyRfind text ['\n', '\n'] start end0
          if pb > start then pb
          else if containsSub (pySlice text start end0) ['.'] then
            let sb := pyRfind text ['.'] start end0 + 1
            if sb > start then sb else end0
          else end0
        else end0
      let chunk := pyStrip (pySlice text start endF)
      let chunks' := if chunk ≠ [] then chunks ++ [String.mk chunk] else chunks
      let start' := if endF < (text.length : Int) then endF - overlap else endF
      chunkLoop text maxSize overlap fuel start' chunks'
    else some chunks

/-- ExtractionService.chunk_text.  The settings defaults are
max_chunk_size = 2000 and overlap = 200, but both are environment-loaded
configuration, so they are passed explicitly. -/
def chunk_text (fuel : Nat) (text : String) (maxSize overlap : Int) :
    Option (List String) :=
  if (text.length : Int) ≤ maxSize then some [text]
  else chunkLoop text.data maxSize overlap fuel 0 []

/-! ## The job record and pipeline state

backend.models only declares the data shapes (the module itself is plain
pydantic declarations); the fields below are exactly those the services
read and write on the uploads document.  The MongoDB uploads collection is
modelled as a single job record (each run owns one file_id), the extracted
text file and the generated-questions blob as optional slots, and the
update_status / update_progress calls additionally append to ghost logs so
that temporal claims about the order of updates can be stated. -/

inductive ProcessingStatus where
  | uploaded : ProcessingStatus
  | extracting : ProcessingStatus
  | extracted : ProcessingStatus
  | generating : ProcessingStatus
  | ready : ProcessingStatus
  | failed : ProcessingStatus
deriving DecidableEq, Repr

structure Job where
  status : ProcessingStatus
  error : Option String
  progress_current : Nat
  progress_total : Nat
  progress_message : Option String
  extracted_text_path : Option String
  generated_questions_path : Option String
deriving DecidableEq, Repr

structure PState where
  job : Job
  /-- Content of the extracted-text file, when it exists on disk. -/
  extractedFile : Option String
  /-- Content of the generated-questions JSON file, when it exists.  It is
  kept as the structured document (serialization is the codec's concern). -/
  blob : Option Json
  /-- Ghost log: every update_status call, with the error argument passed. -/
  statusLog : List (ProcessingStatus × Option String)
  /-- Ghost log: every update_progress call (current, total, message). -/
  progressLog : List (Nat × Nat × Option String)
  /-- Ghost log: chunk indices for which the model gateway was invoked. -/
  gatewayLog : List Nat
deriving Repr

/-- External collaborators and runtime configuration for one run. -/
structure Env where
  /-- Does the uploaded PDF exist on disk? -/
  pdfExists : Bool
  /-- Result of pymupdf4llm.to_markdown when extraction is invoked:
  the markdown text, or the message of the raised exception. -/
  extractRaw : Except String String
  /-- Raw completion text per (chunk index, chunk text) gateway call, or the
  provider exception's message. -/
  llm : Nat → String → Except String String
  /-- Value stored for created_at (datetime.utcnow() after serialization). -/
  now : Json
  /-- settings.max_chunk_size (default 2000, environment-loaded). -/
  maxChunkSize : Int
  /-- settings.chunk_overlap (default 200, environment-loaded). -/
  chunkOverlap : Int

/-- Python truthiness of the optional string arguments (None and "" are
falsy), used by the `if error:` / `if message:` guards. -/
def pyTruthyStr : Option String → Bool
  | none => false
  | some s => s ≠ ""

/-- UploadService.update_status on the job record: $set always contains
status, and error only when the error argument is truthy.  No other field
is ever part of the update. -/
def update_status_job (j : Job) (s : ProcessingStatus) (e : Option String) : Job :=
  if pyTruthyStr e then { j with status := s, error := e }
  else { j with status := s }

/-- UploadService.update_status on the pipeline state (plus ghost log). -/
def update_status (st : PState) (s : ProcessingStatus) (e : Option String) : PState :=
  { st with job := update_status_job st.job s e,
            statusLog := st.statusLog ++ [(s, e)] }

/-- UploadService.update_progress: $set of the two counters, plus the
message only when truthy. -/
def update_progress (st : PState) (current total : Nat) (msg : Option String) : PState :=
  { st with
    job := { st.job with
      progress_current := current,
      progress_total := total,
      progress_message := if pyTruthyStr msg then msg else st.job.progress_message },
    progressLog := st.progressLog ++ [(current, total, msg)] }

/-- ExtractionService.get_extracted_text: None unless the path is recorded
and the file exists, else the file's content. -/
def get_extracted_text (st : PState) : Option String :=
  match st.job.extracted_text_path with
  | none => none
  | some _ => st.extractedFile

/-- ExtractionService.extract_text_from_pdf: set Extracting, run the
extractor, persist the text and set Extracted on success; on any exception
set Failed with an extraction-prefixed message and re-raise. -/
def extract_text_from_pdf (fileId : String) (st : PState) (env : Env) :
    PState × Except String String :=
  let st1 := update_status st .extracting none
  if ¬ env.pdfExists then
    let msg := "PDF file not found: " ++ fileId ++ ".pdf"
    (update_status st1 .failed (some ("Extraction failed: " ++ msg)), .error msg)
  else
    match env.extractRaw with
    | .error e =>
      (update_status st1 .failed (some ("Extraction failed: " ++ e)), .error e)
    | .ok md =>
      if pyStrip md.data = [] then
        let msg := "No text could be extracted from PDF"
        (update_status st1 .failed (some ("Extraction failed: " ++ msg)), .error msg)
      else
        let st2 := { st1 with
          extractedFile := some md,
          job := { st1.job with extracted_text_path := some (fileId ++ ".txt") } }
        (update_status st2 .extracted none, .ok md)

/-! ## The per-chunk generation loop of QuestionService.generate_questions_from_file -/

/-- Python `"questions" in result` on the parsed document: key membership
for dicts, element membership for lists, substring for strings; a TypeError
(error) for the non-iterable values. -/
def hasQuestionsKey : Json → Except String Bool
  | .obj kvs => .ok (kvs.lookup "questions").isSome
  | .arr xs => .ok (xs.toList.contains (Json.str "questions"))
  | .str s => .ok (containsSub s.data ("questions".data))
  | _ => .error "TypeError: argument is not iterable"

/-- Python `result["questions"]`: dict lookup; KeyError when absent;
TypeError on non-dict subscripting with a string key. -/
def getItemQuestions : Json → Except String Json
  | .obj kvs =>
    match kvs.lookup "questions" with
    | some v => .ok v
    | none => .error "KeyError: questions"
  | _ => .error "TypeError: not subscriptable with a string"

/-- The per-element body of `for q_data in result["questions"]`:
q_data["file_id"] = file_id; q_data["created_at"] = now; append.  A
non-dict element raises on the item assignment, aborting the rest of this
chunk's elements while keeping the ones already appended. -/
def collectDrafts (fileId : String) (now : Json) : List Json → List Json
  | [] => []
  | Json.obj kvs :: rest =>
    Json.obj ((kvs.insert "file_id" (Json.str fileId)).insert "created_at" now)
      :: collectDrafts fileId now rest
  | _ :: _ => []

/-- The drafts one chunk contributes: the gateway outcome, then the
normalizer, then the questions lookup; every raised exception is caught at
the chunk boundary and contributes nothing.  Iterating a non-list
questions value, or a dict/str value, raises before any element of this
chunk is appended and is likewise caught. -/
def chunkDrafts (fileId : String) (env : Env) (idx : Nat) (c : String) : List Json :=
  match env.llm idx c with
  | .error _ => []
  | .ok raw =>
    match llmParse raw with
    | .error _ => []
    | .ok result =>
      match hasQuestionsKey result with
      | .error _ => []
      | .ok false => []
      | .ok true =>
        match getItemQuestions result with
        | .error _ => []
        | .ok (Json.arr elems) => collectDrafts fileId env.now elems.toList
        | .ok _ => []

/-- The progress message written before invoking the gateway for chunk
index idx (0-based): "Processing chunk (idx+1)/(total)". -/
def chunkMsg (current total : Nat) : String :=
  "Processing chunk " ++ toString current ++ "/" ++ toString total

/-- One iteration of the chunk loop: update progress (before the gateway
call), invoke the gateway, and accumulate this chunk's drafts. -/
def processChunk (fileId : String) (env : Env) (total : Nat)
    (st : PState) (all : List Json) (idx : Nat) (c : String) : PState × List Json :=
  let st1 := update_progress st (idx + 1) total (some (chunkMsg (idx + 1) total))
  let st2 := { st1 with gatewayLog := st1.gatewayLog ++ [idx] }
  (st2, all ++ chunkDrafts fileId env idx c)

/-- The sequential chunk loop over the enumerated chunk list. -/
def runChunks (fileId : String) (env : Env) (total : Nat) :
    PState → List Json → List (Nat × String) → PState × List Json
  | st, all, [] => (st, all)
  | st, all, (idx, c) :: rest =>
    let p := processChunk fileId env total st all idx c
    runChunks fileId env total p.1 p.2 rest

/-- The message of the ValueError raised when no questions were produced. -/
def noQuestionsMsg : String :=
  "No questions were generated from the text"

/-- The tail of generate_questions_from_file once the source text is in
hand: chunk, reset progress, loop over the chunks, then either persist the
aggregate and set Ready, or raise (caught by the outer handler, which sets
Failed).  A none result propagates chunk_text's non-termination. -/
def runGenLoop (fuel : Nat) (fileId : String) (st : PState) (env : Env)
    (text : String) : Option (PState × Except String (List Json)) :=
  match chunk_text fuel text env.maxChunkSize env.chunkOverlap with
  | none => none
  | some chunks =>
    let total := chunks.length
    let st1 := update_progress st 0 total (some "Starting question generation...")
    let p := runChunks fileId env total st1 [] chunks.enum
    if p.2.isEmpty then
      some (update_status p.1 .failed
              (some ("Question generation failed: " ++ noQuestionsMsg)),
            .error noQuestionsMsg)
    else
      let st2 := { p.1 with blob := some (Json.obj (JsonObj.cons "questions"
                    (Json.arr (JsonArr.ofList p.2)) JsonObj.nil)) }
      let st3 := { st2 with
        job := { st2.job with generated_questions_path := some (fileId ++ ".json") } }
      some (update_status st3 .ready none, .ok p.2)

/-- The `if not text:` guard over get_extracted_text's result: an empty
string is as falsy as a missing file. -/
def pyTruthyText : Option String → Option String
  | some s => if s = "" then none else some s
  | none => none

/-- QuestionService.generate_questions_from_file: unconditionally set
Generating, fetch (or first produce) the extracted text, then run the
chunk loop.  Any exception is caught by the outer handler, which sets
Failed with a generation-prefixed message and re-raises. -/
def generate_questions_from_file (fuel : Nat) (fileId : String)
    (st : PState) (env : Env) : Option (PState × Except String (List Json)) :=
  let st1 := update_status st .generating none
  match pyTruthyText (get_extracted_text st1) with
  | some text => runGenLoop fuel fileId st1 env text
  | none =>
    match extract_text_from_pdf fileId st1 env with
    | (st2, .ok text) => runGenLoop fuel fileId st2 env text
    | (st2, .error e) =>
      some (update_status st2 .failed
              (some ("Question generation failed: " ++ e)),
            .error e)

/-- QuestionService.get_generated_questions: None unless the questions path
is recorded and the blob file exists; otherwise load it and read its
"questions" entry.  A blob without a well-formed questions list raises
(KeyError / TypeError), modelled as an error. -/
def get_generated_questions (st : PState) : Except String (Option (List Json)) :=
  match st.job.generated_questions_path with
  | none => .ok none
  | some _ =>
    match st.blob with
    | none => .ok none
    | some data =>
      match getItemQuestions data with
      | .error e => .error e
      | .ok (Json.arr qs) => .ok (some qs.toList)
      | .ok _ => .error "TypeError: not a list of records"

/-- The POST /generate/file_id route handler: return the previously
generated set when one exists, otherwise run the pipeline.  No status check
of any kind is performed. -/
def generate_questions_route (fuel : Nat) (fileId : String)
    (st : PState) (env : Env) : Option (PState × Except String (List Json)) :=
  match get_generated_questions st with
  | .error e => some (st, .error e)
  | .ok (some qs) => some (st, .ok qs)
  | .ok none => generate_questions_from_file fuel fileId st env

/-- All drafts aggregated over one run's enumerated chunk list. -/
def aggregateDrafts (fileId : String) (env : Env) (chunks : List String) : List Json :=
  (chunks.enum.map (fun p => chunkDrafts fileId env p.1 p.2)).flatten

/-- Modelled from the claim wording: the status edges the spec's state
machine allows - the forward chain Uploaded, Extracting, Extracted,
Generating, Ready, plus Failed from any non-terminal state; Ready and
Failed terminal.  Used only to compare the claimed machine with the code's
actual updates. -/
def claimedEdge : ProcessingStatus → ProcessingStatus → Bool
  | .uploaded, .extracting => true
  | .extracting, .extracted => true
  | .extracted, .generating => true
  | .generating, .ready => true
  | .uploaded, .failed => true
  | .extracting, .failed => true
  | .extracted, .failed => true
  | .generating, .failed => true
  | _, _ => false

/-- A chunk fails in the sense of the claims: the gateway raises, or the
normalizer rejects the raw response. -/
def chunkFailed (env : Env) (idx : Nat) (c : String) : Bool :=
  match env.llm idx c with
  | .error _ => true
  | .ok raw =>
    match llmParse raw with
    | .error _ => true
    | .ok _ => false

/-! ## Concrete fixtures used by the per-claim witnesses and counterexamples -/

/-- A job record as created at upload time. -/
def uploadedJob : Job :=
  { status := .uploaded, error := none, progress_current := 0, progress_total := 0,
    progress_message := none, extracted_text_path := none,
    generated_questions_path := none }

/-- Pipeline state of a freshly uploaded job. -/
def freshState : PState :=
  { job := uploadedJob, extractedFile := none, blob := none,
    statusLog := [], progressLog := [], gatewayLog := [] }

/-- State of a job whose text was already extracted to file. -/
def extractedState (t : String) : PState :=
  { job := { uploadedJob with extracted_text_path := some "f.txt" },
    extractedFile := some t, blob := none,
    statusLog := [], progressLog := [], gatewayLog := [] }

/-- Environment defaults: extractable "hello", default chunk settings, a
gateway that is never expected to be called. -/
def baseEnv : Env :=
  { pdfExists := true, extractRaw := .ok "hello",
    llm := fun _ _ => .error "unused", now := Json.null,
    maxChunkSize := 2000, chunkOverlap := 200 }

/-- A minimal well-formed raw response carrying one draft tagged n. -/
def okDraftRaw (n : String) : String :=
  "\x7b\"questions\": [\x7b\"q\": \"" ++ n ++ "\"\x7d]\x7d"

/-- A syntactically valid response whose single multiple_choice draft has
only 3 options. -/
def mcq3raw : String :=
  "\x7b\"questions\": [\x7b\"type\": \"multiple_choice\", \"question\": \"Q?\", \"options\": [\x7b\"label\": \"A\", \"text\": \"a\"\x7d, \x7b\"label\": \"B\", \"text\": \"b\"\x7d, \x7b\"label\": \"C\", \"text\": \"c\"\x7d], \"correct_answer\": \"A\"\x7d]\x7d"

/-- The options array of the 3-option draft. -/
def mcq3options : JsonArr :=
  JsonArr.ofList
    [Json.obj (JsonObj.ofList [("label", Json.str "A"), ("text", Json.str "a")]),
     Json.obj (JsonObj.ofList [("label", Json.str "B"), ("text", Json.str "b")]),
     Json.obj (JsonObj.ofList [("label", Json.str "C"), ("text", Json.str "c")])]

/-- The 3-option multiple_choice draft as parsed. -/
def mcq3draft : Json :=
  Json.obj (JsonObj.ofList
    [("type", Json.str "multiple_choice"), ("question", Json.str "Q?"),
     ("options", Json.arr mcq3options), ("correct_answer", Json.str "A")])

/-- The parsed document holding only the 3-option draft. -/
def mcq3doc : Json :=
  Json.obj (JsonObj.cons "questions"
    (Json.arr (JsonArr.cons mcq3draft JsonArr.nil)) JsonObj.nil)

/-- The 3-option draft after the orchestrator adds file_id and created_at. -/
def mcq3persisted : Json :=
  Json.obj (JsonObj.ofList
    [("type", Json.str "multiple_choice"), ("question", Json.str "Q?"),
     ("options", Json.arr mcq3options), ("correct_answer", Json.str "A"),
     ("file_id", Json.str "f"), ("created_at", Json.null)])

/-- A valid response whose draft names a correct_answer matching no option
label (options A-D, answer E). -/
def badLabelRaw : String :=
  "\x7b\"questions\": [\x7b\"type\": \"multiple_choice\", \"question\": \"Q?\", \"options\": [\x7b\"label\": \"A\", \"text\": \"a\"\x7d, \x7b\"label\": \"B\", \"text\": \"b\"\x7d, \x7b\"label\": \"C\", \"text\": \"c\"\x7d, \x7b\"label\": \"D\", \"text\": \"d\"\x7d], \"correct_answer\": \"E\"\x7d]\x7d"

/-- The unmatched-label draft as parsed. -/
def badLabelDoc : Json :=
  Json.obj (JsonObj.cons "questions"
    (Json.arr (JsonArr.cons
      (Json.obj (JsonObj.ofList
        [("type", Json.str "multiple_choice"), ("question", Json.str "Q?"),
         ("options", Json.arr (JsonArr.ofList
           [Json.obj (JsonObj.ofList [("label", Json.str "A"), ("text", Json.str "a")]),
            Json.obj (JsonObj.ofList [("label", Json.str "B"), ("text", Json.str "b")]),
            Json.obj (JsonObj.ofList [("label", Json.str "C"), ("text", Json.str "c")]),
            Json.obj (JsonObj.ofList [("label", Json.str "D"), ("text", Json.str "d")])])),
         ("correct_answer", Json.str "E")]))
      JsonArr.nil)) JsonObj.nil)

/-- A syntactically valid object with no questions key at all. -/
def noQuestionsRaw : String := "\x7b\"items\": []\x7d"

/-- A syntactically valid response with an empty questions array. -/
def emptyQuestionsRaw : String := "\x7b\"questions\": []\x7d"

/-- The environment of the C1 run: one chunk answered with the 3-option
draft. -/
def c1env : Env := { baseEnv with llm := fun _ _ => .ok mcq3raw }

/-- The persisted blob after the C1 run. -/
def c1blob : Json :=
  Json.obj (JsonObj.cons "questions"
    (Json.arr (JsonArr.cons mcq3persisted JsonArr.nil)) JsonObj.nil)

/-- An environment whose gateway always answers with one small draft. -/
def c2env : Env := { baseEnv with llm := fun _ _ => .ok (okDraftRaw "x") }

/-- A Failed job that was never extracted. -/
def c2failedState : PState :=
  { job := { uploadedJob with status := .failed, error := some "boom" },
    extractedFile := none, blob := none,
    statusLog := [], progressLog := [], gatewayLog := [] }

/-- The chunk_text input on which the loop cycles: the last paragraph break
inside the window keeps being selected as the window end, and
end - overlap returns the window to the same start. -/
def c3text : String := "ABCDEF\n\nZZZZZZZZZZZZZZZZZZZZ"

/-- A job currently in Generating (extracted, nothing persisted yet). -/
def genState : PState :=
  { job := { uploadedJob with
               status := .generating, extracted_text_path := some "f.txt" },
    extractedFile := some "hello", blob := none,
    statusLog := [], progressLog := [], gatewayLog := [] }

/-- Environment for the C4 counterexample run. -/
def c4env : Env := { baseEnv with llm := fun _ _ => .ok (okDraftRaw "y") }

/-- The draft the C4 run persists. -/
def c4draft : Json :=
  Json.obj (JsonObj.ofList
    [("q", Json.str "y"), ("file_id", Json.str "f"), ("created_at", Json.null)])

/-- The spec's partial-failure example: 5 chunks, with chunks 2 and 4
(indices 1 and 3) raising ProviderError. -/
def c5env : Env :=
  { baseEnv with
    extractRaw := .ok "ABCDEFGHIJKLMNOP",
    maxChunkSize := 4, chunkOverlap := 1,
    llm := fun i _ =>
      if i = 1 ∨ i = 3 then .error "ProviderError" else .ok (okDraftRaw (toString i)) }

/-- Small-window environment for the C5 counterexample: chunk 0 raises,
chunk 1 succeeds but carries an empty questions array. -/
def c5cxEnv : Env :=
  { baseEnv with
    maxChunkSize := 4, chunkOverlap := 1,
    llm := fun i _ =>
      if i = 0 then .error "ProviderError" else .ok emptyQuestionsRaw }

/-- Environment where every gateway call raises. -/
def c6env : Env :=
  { baseEnv with
    extractRaw := .ok "ABCDEFGHIJKLMNOP",
    maxChunkSize := 4, chunkOverlap := 1,
    llm := fun _ _ => .error "ProviderError" }

/-- The stored question set of the Ready job. -/
def c7qs : List Json :=
  [Json.obj (JsonObj.cons "q" (Json.str "z") JsonObj.nil)]

/-- A Ready job with its generated set persisted. -/
def readyState : PState :=
  { job := { uploadedJob with
               status := .ready, generated_questions_path := some "f.json" },
    extractedFile := none,
    blob := some (Json.obj (JsonObj.cons "questions"
      (Json.arr (JsonArr.ofList c7qs)) JsonObj.nil)),
    statusLog := [], progressLog := [], gatewayLog := [] }

/-- A Failed job with a stored error string and extracted text, about to be
re-run. -/
def failedState : PState :=
  { job := { uploadedJob with
               status := .failed, error := some "boom",
               extracted_text_path := some "f.txt" },
    extractedFile := some "hello", blob := none,
    statusLog := [], progressLog := [], gatewayLog := [] }

/-- The full prose-and-fence-wrapped response of the normalizer-resilience
claim, around this bare object. -/
def bare8 : String :=
  "\x7b\"questions\": [\x7b\"type\": \"true_false\", \"question\": \"The sky is blue.\", \"correct_answer\": \"True\"\x7d]\x7d"

/-- The wrapped raw response: leading prose, a fence, the object, a closing
fence and trailing prose. -/
def raw8 : String :=
  "Here you go:\n```json\n" ++ bare8 ++ "\n```\nHope this helps!"

/-- The document both the normalizer and direct parsing must recover. -/
def bare8doc : Json :=
  Json.obj (JsonObj.cons "questions"
    (Json.arr (JsonArr.cons
      (Json.obj (JsonObj.ofList
        [("type", Json.str "true_false"),
         ("question", Json.str "The sky is blue."),
         ("correct_answer", Json.str "True")]))
      JsonArr.nil)) JsonObj.nil)

/-- A single syntactically valid JSON object whose first string value
contains a right brace, defeating the brace-depth scan. -/
def raw10 : String :=
  "\x7b\"note\": \"\x7d\", \"questions\": [\x7b\"question\": \"ok\"\x7d]\x7d"

/-- What json.loads yields on the full raw10 object. -/
def raw10doc : Json :=
  Json.obj (JsonObj.cons "note" (Json.str "\x7d")
    (JsonObj.cons "questions"
      (Json.arr (JsonArr.cons
        (Json.obj (JsonObj.cons "question" (Json.str "ok") JsonObj.nil))
        JsonArr.nil)) JsonObj.nil))

/-- The five chunks the window (maxSize 4, overlap 1) cuts out of the
16-character fixture text. -/
def c5chunks : List String := ["ABCD", "DEFG", "GHIJ", "JKLM", "MNOP"]

/-- The extracted 16-character fixture state. -/
def c5state : PState := extractedState "ABCDEFGHIJKLMNOP"

/-! ## Structural lemmas about the chunk loop -/

theorem runChunks_snd (fid : String) (env : Env) (tot : Nat) :
    ∀ (l : List (Nat × String)) (st : PState) (all : List Json),
    (runChunks fid env tot st all l).2
      = all ++ (l.map (fun p => chunkDrafts fid env p.1 p.2)).flatten := by
  intro l
  induction l with
  | nil => intro st all; simp [runChunks]
  | cons hd tl ih =>
    intro st all
    cases hd with
    | mk idx c => simp [runChunks, processChunk, ih]

theorem runChunks_job_status (fid : String) (env : Env) (tot : Nat) :
    ∀ (l : List (Nat × String)) (st : PState) (all : List Json),
    (runChunks fid env tot st all l).1.job.status = st.job.status := by
  intro l
  induction l with
  | nil => intro st all; rfl
  | cons hd tl ih =>
    intro st all
    cases hd with
    | mk idx c => simp [runChunks, processChunk, update_progress, ih]

theorem runChunks_job_error (fid : String) (env : Env) (tot : Nat) :
    ∀ (l : List (Nat × String)) (st : PState) (all : List Json),
    (runChunks fid env tot st all l).1.job.error = st.job.error := by
  intro l
  induction l with
  | nil => intro st all; rfl
  | cons hd tl ih =>
    intro st all
    cases hd with
    | mk idx c => simp [runChunks, processChunk, update_progress, ih]

theorem runChunks_blob (fid : String) (env : Env) (tot : Nat) :
    ∀ (l : List (Nat × String)) (st : PState) (all : List Json),
    (runChunks fid env tot st all l).1.blob = st.blob := by
  intro l
  induction l with
  | nil => intro st all; rfl
  | cons hd tl ih =>
    intro st all
    cases hd with
    | mk idx c => simp [runChunks, processChunk, update_progress, ih]

theorem runChunks_extractedFile (fid : String) (env : Env) (tot : Nat) :
    ∀ (l : List (Nat × String)) (st : PState) (all : List Json),
    (runChunks fid env tot st all l).1.extractedFile = st.extractedFile := by
  intro l
  induction l with
  | nil => intro st all; rfl
  | cons hd tl ih =>
    intro st all
    cases hd with
    | mk idx c => simp [runChunks, processChunk, update_progress, ih]

theorem runChunks_epath (fid : String) (env : Env) (tot : Nat) :
    ∀ (l : List (Nat × String)) (st : PState) (all : List Json),
    (runChunks fid env tot st all l).1.job.extracted_text_path
      = st.job.extracted_text_path := by
  intro l
  induction l with
  | nil => intro st all; rfl
  | cons hd tl ih =>
    intro st all
    cases hd with
    | mk idx c => simp [runChunks, processChunk, update_progress, ih]

theorem runChunks_gpath (fid : String) (env : Env) (tot : Nat) :
    ∀ (l : List (Nat × String)) (st : PState) (all : List Json),
    (runChunks fid env tot st all l).1.job.generated_questions_path
      = st.job.generated_questions_path := by
  intro l
  induction l with
  | nil => intro st all; rfl
  | cons hd tl ih =>
    intro st all
    cases hd with
    | mk idx c => simp [runChunks, processChunk, update_progress, ih]

theorem runChunks_statusLog (fid : String) (env : Env) (tot : Nat) :
    ∀ (l : List (Nat × String)) (st : PState) (all : List Json),
    (runChunks fid env tot st all l).1.statusLog = st.statusLog := by
  intro l
  induction l with
  | nil => intro st all; rfl
  | cons hd tl ih =>
    intro st all
    cases hd with
    | mk idx c => simp [runChunks, processChunk, update_progress, ih]

theorem runChunks_gatewayLog (fid : String) (env : Env) (tot : Nat) :
    ∀ (l : List (Nat × String)) (st : PState) (all : List Json),
    (runChunks fid env tot st all l).1.gatewayLog
      = st.gatewayLog ++ l.map Prod.fst := by
  intro l
  induction l with
  | nil => intro st all; simp [runChunks]
  | cons hd tl ih =>
    intro st all
    cases hd with
    | mk idx c => simp [runChunks, processChunk, update_progress, ih]

theorem runChunks_progressLog (fid : String) (env : Env) (tot : Nat) :
    ∀ (l : List (Nat × String)) (st : PState) (all : List Json),
    (runChunks fid env tot st all l).1.progressLog
      = st.progressLog
        ++ l.map (fun p => (p.1 + 1, tot, some (chunkMsg (p.1 + 1) tot))) := by
  intro l
  induction l with
  | nil => intro st all; simp [runChunks]
  | cons hd tl ih =>
    intro st all
    cases hd with
    | mk idx c => simp [runChunks, processChunk, update_progress, ih]

/-- Composing an index-only map over an enumerated list. -/
theorem enum_map_fst_comp {α β : Type} (l : List α) (g : Nat → β) :
    l.enum.map (fun p => g p.1) = (List.range l.length).map g := by
  have h : (fun p : Nat × α => g p.1) = g ∘ Prod.fst := rfl
  rw [h, ← List.map_map, List.enum_map_fst]

/-- A successful pass through the chunk loop and persistence step:
the aggregate is non-empty, so the blob is written, the questions path is
recorded and the job ends Ready; the error field, the extracted text and
its path are untouched; the gateway is invoked once per chunk in index
order, each invocation preceded by its progress update. -/
theorem runGenLoop_ok (fuel : Nat) (fid : String) (st : PState) (env : Env)
    (text : String) (chunks : List String)
    (hc : chunk_text fuel text env.maxChunkSize env.chunkOverlap = some chunks)
    (hne : aggregateDrafts fid env chunks ≠ []) :
    ∃ stF, runGenLoop fuel fid st env text
        = some (stF, .ok (aggregateDrafts fid env chunks))
      ∧ stF.job.status = .ready
      ∧ stF.job.error = st.job.error
      ∧ stF.blob = some (Json.obj (JsonObj.cons "questions"
          (Json.arr (JsonArr.ofList (aggregateDrafts fid env chunks))) JsonObj.nil))
      ∧ stF.job.generated_questions_path = some (fid ++ ".json")
      ∧ stF.gatewayLog = st.gatewayLog ++ List.range chunks.length
      ∧ stF.progressLog = st.progressLog
          ++ (0, chunks.length, some "Starting question generation...")
          :: (List.range chunks.length).map
               (fun i => (i + 1, chunks.length, some (chunkMsg (i + 1) chunks.length)))
      ∧ stF.statusLog = st.statusLog ++ [(.ready, none)]
      ∧ stF.extractedFile = st.extractedFile
      ∧ stF.job.extracted_text_path = st.job.extracted_text_path := by
  unfold runGenLoop
  rw [hc]
  have hsnd := runChunks_snd fid env chunks.length chunks.enum
    (update_progress st 0 chunks.length (some "Starting question generation...")) []
  have hagg : (runChunks fid env chunks.length
      (update_progress st 0 chunks.length (some "Starting question generation..."))
      [] chunks.enum).2 = aggregateDrafts fid env chunks := by
    rw [hsnd]; simp [aggregateDrafts]
  simp only [hagg]
  have hie : (aggregateDrafts fid env chunks).isEmpty = false := by
    simpa [List.isEmpty_iff] using hne
  simp only [hie, Bool.false_eq_true, if_false]
  refine ⟨_, rfl, ?_⟩
  refine ⟨rfl, ?_, rfl, rfl, ?_, ?_, ?_, ?_, ?_⟩
  · simp [update_status, update_status_job, pyTruthyStr, runChunks_job_error,
      update_progress]
  · simp [update_status, runChunks_gatewayLog, update_progress, List.enum_map_fst]
  · simp [update_status, runChunks_progressLog, update_progress]
    exact enum_map_fst_comp chunks
      (fun i => (i + 1, chunks.length, some (chunkMsg (i + 1) chunks.length)))
  · simp [update_status, runChunks_statusLog, update_progress]
  · simp [update_status, runChunks_extractedFile, update_progress]
  · simp [update_status, update_status_job, pyTruthyStr, runChunks_epath,
      update_progress]

/-- The chunk loop when the aggregate comes out empty: the ValueError is
raised and caught by the outer handler, the job is set Failed with the
no-questions message, and neither the blob nor the questions path is
touched. -/
theorem runGenLoop_fail (fuel : Nat) (fid : String) (st : PState) (env : Env)
    (text : String) (chunks : List String)
    (hc : chunk_text fuel text env.maxChunkSize env.chunkOverlap = some chunks)
    (hempty : aggregateDrafts fid env chunks = []) :
    ∃ stF, runGenLoop fuel fid st env text = some (stF, .error noQuestionsMsg)
      ∧ stF.job.status = .failed
      ∧ stF.job.error = some ("Question generation failed: " ++ noQuestionsMsg)
      ∧ stF.blob = st.blob
      ∧ stF.job.generated_questions_path = st.job.generated_questions_path
      ∧ stF.gatewayLog = st.gatewayLog ++ List.range chunks.length
      ∧ stF.statusLog = st.statusLog
          ++ [(.failed, some ("Question generation failed: " ++ noQuestionsMsg))] := by
  unfold runGenLoop
  rw [hc]
  have hagg : (runChunks fid env chunks.length
      (update_progress st 0 chunks.length (some "Starting question generation..."))
      [] chunks.enum).2 = aggregateDrafts fid env chunks := by
    rw [runChunks_snd]; simp [aggregateDrafts]
  simp only [hagg, hempty, List.isEmpty_nil, if_true]
  have hmsg : ("Question generation failed: " ++ noQuestionsMsg) ≠ "" := by decide
  refine ⟨_, rfl, ?_, ?_, ?_, ?_, ?_, ?_⟩
  · simp [update_status, update_status_job, pyTruthyStr, hmsg]
  · simp [update_status, update_status_job, pyTruthyStr, hmsg]
  · simp [update_status, runChunks_blob, update_progress]
  · simp [update_status, update_status_job, pyTruthyStr, hmsg, runChunks_gpath,
      update_progress]
  · simp [update_status, runChunks_gatewayLog, update_progress, List.enum_map_fst]
  · simp [update_status, runChunks_statusLog, update_progress]

/-- Successful extraction: the extractor ran, produced non-blank text, the
text file and its path were recorded, and the status updates were
Extracting then Extracted; error, blob and questions path untouched. -/
theorem extract_ok (fid : String) (st : PState) (env : Env) (text : String)
    (hpdf : env.pdfExists = true)
    (hraw : env.extractRaw = .ok text)
    (hnb : pyStrip text.data ≠ []) :
    ∃ st2, extract_text_from_pdf fid st env = (st2, .ok text)
      ∧ st2.job.status = .extracted
      ∧ st2.job.error = st.job.error
      ∧ st2.extractedFile = some text
      ∧ st2.job.extracted_text_path = some (fid ++ ".txt")
      ∧ st2.blob = st.blob
      ∧ st2.job.generated_questions_path = st.job.generated_questions_path
      ∧ st2.gatewayLog = st.gatewayLog
      ∧ st2.progressLog = st.progressLog
      ∧ st2.statusLog = st.statusLog ++ [(.extracting, none), (.extracted, none)] := by
  have hred : extract_text_from_pdf fid st env =
      (update_status
        { (update_status st .extracting none) with
          extractedFile := some text,
          job := { (update_status st .extracting none).job with
                   extracted_text_path := some (fid ++ ".txt") } }
        .extracted none, .ok text) := by
    unfold extract_text_from_pdf
    rw [hpdf, hraw]
    simp [hnb]
  rw [hred]
  refine ⟨_, rfl, ?_, ?_, ?_, ?_, ?_, ?_, ?_, ?_, ?_⟩ <;>
    simp [update_status, update_status_job, pyTruthyStr]

/-- generate_questions_from_file when the text is already extracted and at
least one chunk yields drafts: the single pre-loop status update is
Generating (whatever the prior status), the loop runs, and the job ends
Ready with the aggregate persisted; the stored error detail is untouched. -/
theorem genFromFile_extracted_ok (fuel : Nat) (fid : String) (st : PState)
    (env : Env) (text : String) (chunks : List String) (p : String)
    (hpath : st.job.extracted_text_path = some p)
    (hfile : st.extractedFile = some text)
    (hne0 : text ≠ "")
    (hc : chunk_text fuel text env.maxChunkSize env.chunkOverlap = some chunks)
    (hne : aggregateDrafts fid env chunks ≠ []) :
    ∃ stF, generate_questions_from_file fuel fid st env
        = some (stF, .ok (aggregateDrafts fid env chunks))
      ∧ stF.job.status = .ready
      ∧ stF.job.error = st.job.error
      ∧ stF.blob = some (Json.obj (JsonObj.cons "questions"
          (Json.arr (JsonArr.ofList (aggregateDrafts fid env chunks))) JsonObj.nil))
      ∧ stF.job.generated_questions_path = some (fid ++ ".json")
      ∧ stF.gatewayLog = st.gatewayLog ++ List.range chunks.length
      ∧ stF.progressLog = st.progressLog
          ++ (0, chunks.length, some "Starting question generation...")
          :: (List.range chunks.length).map
               (fun i => (i + 1, chunks.length, some (chunkMsg (i + 1) chunks.length)))
      ∧ stF.statusLog = st.statusLog ++ [(.generating, none), (.ready, none)] := by
  have hget : pyTruthyText (get_extracted_text (update_status st .generating none))
      = some text := by
    simp [pyTruthyText, get_extracted_text, update_status, update_status_job,
      pyTruthyStr, hpath, hfile, hne0]
  have hred : generate_questions_from_file fuel fid st env
      = runGenLoop fuel fid (update_status st .generating none) env text := by
    unfold generate_questions_from_file
    simp only [hget]
  rw [hred]
  obtain ⟨stF, heq, h1, h2, h3, h4, h5, h6, h7, _, _⟩ :=
    runGenLoop_ok fuel fid (update_status st .generating none) env text chunks hc hne
  refine ⟨stF, heq, h1, ?_, h3, h4, ?_, ?_, ?_⟩
  · rw [h2]; simp [update_status, update_status_job, pyTruthyStr]
  · rw [h5]; simp [update_status]
  · rw [h6]; simp [update_status]
  · rw [h7]; simp [update_status]

/-- generate_questions_from_file on a job with no extracted text: the first
status update is Generating regardless of the job's prior status, then
extraction runs (Extracting, Extracted) inside the generation call, then
the loop; on success the job ends Ready. -/
theorem genFromFile_unextracted_ok (fuel : Nat) (fid : String) (st : PState)
    (env : Env) (text : String) (chunks : List String)
    (hpath : st.job.extracted_text_path = none)
    (hpdf : env.pdfExists = true)
    (hraw : env.extractRaw = .ok text)
    (hnb : pyStrip text.data ≠ [])
    (hc : chunk_text fuel text env.maxChunkSize env.chunkOverlap = some chunks)
    (hne : aggregateDrafts fid env chunks ≠ []) :
    ∃ stF, generate_questions_from_file fuel fid st env
        = some (stF, .ok (aggregateDrafts fid env chunks))
      ∧ stF.job.status = .ready
      ∧ stF.job.error = st.job.error
      ∧ stF.job.generated_questions_path = some (fid ++ ".json")
      ∧ stF.statusLog = st.statusLog
          ++ [(.generating, none), (.extracting, none), (.extracted, none), (.ready, none)] := by
  have hget : pyTruthyText (get_extracted_text (update_status st .generating none))
      = none := by
    simp [pyTruthyText, get_extracted_text, update_status, update_status_job,
      pyTruthyStr, hpath]
  obtain ⟨st2, heq2, hs2, herr2, hfile2, hepath2, hblob2, hgp2, hgw2, hpl2, hsl2⟩ :=
    extract_ok fid (update_status st .generating none) env text hpdf hraw hnb
  have hred : generate_questions_from_file fuel fid st env
      = runGenLoop fuel fid st2 env text := by
    unfold generate_questions_from_file
    simp only [hget, heq2]
  rw [hred]
  obtain ⟨stF, heq, h1, h2, h3, h4, h5, h6, h7, _, _⟩ :=
    runGenLoop_ok fuel fid st2 env text chunks hc hne
  refine ⟨stF, heq, h1, ?_, h4, ?_⟩
  · rw [h2, herr2]; simp [update_status, update_status_job, pyTruthyStr]
  · rw [h7, hsl2]; simp [update_status]

/-- Round trip between Lean lists and JSON arrays. -/
theorem JsonArr.toList_ofList : ∀ l : List Json, (JsonArr.ofList l).toList = l
  | [] => rfl
  | hd :: tl => by simp [JsonArr.ofList, JsonArr.toList, JsonArr.toList_ofList tl]

/-- A chunk whose gateway call raises contributes no drafts. -/
theorem chunkDrafts_of_llm_error (fid : String) (env : Env) (i : Nat) (c : String)
    (e : String) (h : env.llm i c = .error e) : chunkDrafts fid env i c = [] := by
  unfold chunkDrafts
  rw [h]

/-- chunkFailed after a successful gateway call is decided by the
normalizer alone. -/
theorem chunkFailed_ok (env : Env) (i : Nat) (c raw : String)
    (h : env.llm i c = .ok raw) :
    chunkFailed env i c
      = (match llmParse raw with | .error _ => true | .ok _ => false) := by
  unfold chunkFailed
  rw [h]

/-- chunkDrafts after a successful gateway call. -/
theorem chunkDrafts_ok (fid : String) (env : Env) (i : Nat) (c raw : String)
    (h : env.llm i c = .ok raw) :
    chunkDrafts fid env i c
      = (match llmParse raw with
         | .error _ => []
         | .ok result =>
           match hasQuestionsKey result with
           | .error _ => []
           | .ok false => []
           | .ok true =>
             match getItemQuestions result with
             | .error _ => []
             | .ok (Json.arr elems) => collectDrafts fid env.now elems.toList
             | .ok _ => []) := by
  unfold chunkDrafts
  rw [h]

/-- A failing chunk (gateway raise or normalizer rejection) contributes no
drafts. -/
theorem chunkDrafts_of_failed (fid : String) (env : Env) (i : Nat) (c : String)
    (h : chunkFailed env i c = true) : chunkDrafts fid env i c = [] := by
  cases hllm : env.llm i c with
  | error e => exact chunkDrafts_of_llm_error fid env i c e hllm
  | ok raw =>
    rw [chunkDrafts_ok fid env i c raw hllm]
    rw [chunkFailed_ok env i c raw hllm] at h
    cases hp : llmParse raw with
    | error e => rfl
    | ok v => rw [hp] at h; simp at h

/-- When every chunk fails, the aggregated draft sequence is empty. -/
theorem aggregateDrafts_eq_nil (fid : String) (env : Env) (chunks : List String)
    (hfail : ∀ q ∈ chunks.enum, chunkFailed env q.1 q.2 = true) :
    aggregateDrafts fid env chunks = [] := by
  unfold aggregateDrafts
  rw [List.flatten_eq_nil_iff]
  intro l hl
  obtain ⟨q, hq, rfl⟩ := List.mem_map.mp hl
  exact chunkDrafts_of_failed fid env q.1 q.2 (hfail q hq)

/-- From window start 1 on the C3 text, one loop iteration appends "BCDEF"
and returns to window start 1, for ever. -/
theorem c3_loop_stuck : ∀ (fuel : Nat) (chunks : List String),
    chunkLoop c3text.data 10 5 fuel 1 chunks = none := by
  intro fuel
  induction fuel with
  | zero => intro chunks; rfl
  | succ n ih =>
    intro chunks
    have hstep : chunkLoop c3text.data 10 5 (n + 1) 1 chunks
        = chunkLoop c3text.data 10 5 n 1 (chunks ++ ["BCDEF"]) := rfl
    rw [hstep]
    exact ih (chunks ++ ["BCDEF"])

/-! ## The claims -/

set_option maxRecDepth 40000

/-- C1 counterexample: a syntactically valid response whose only element is
a multiple_choice draft with 3 options is NOT dropped during normalization
and is NOT a normalization failure: the parse pipeline of
LLMService.generate_questions succeeds and returns the 3-option draft
intact in the questions array. -/
theorem c1_three_option_draft_not_dropped :
    llmParse mcq3raw = Except.ok mcq3doc
    ∧ getItemQuestions mcq3doc = Except.ok (Json.arr (JsonArr.cons mcq3draft JsonArr.nil))
    ∧ mcq3options.toList.length = 3 :=
  ⟨rfl, rfl, rfl⟩

/-- C1 (amended): normalization only recovers and parses a JSON document;
it performs no QuestionDraft schema validation and does not even require a
questions key.  A multiple_choice draft with 3 options, or with a
correct_answer matching no option label, is returned as-is rather than
dropped; a response without a questions key still normalizes successfully;
and the orchestrator appends such invalid drafts unvalidated, reaching
Ready with the 3-option draft persisted in the output blob. -/
theorem c1_normalization_has_no_schema_validation :
    llmParse mcq3raw = Except.ok mcq3doc
    ∧ llmParse badLabelRaw = Except.ok badLabelDoc
    ∧ llmParse noQuestionsRaw
        = Except.ok (Json.obj (JsonObj.cons "items" (Json.arr JsonArr.nil) JsonObj.nil))
    ∧ (generate_questions_from_file 1 "f" (extractedState "hello") c1env).map
        (fun pr => (pr.1.job.status, pr.1.blob, pr.2))
      = some (ProcessingStatus.ready, some c1blob, Except.ok [mcq3persisted]) :=
  ⟨rfl, rfl, rfl, rfl⟩

/-- C2 counterexample: starting a generation run on an Uploaded job updates
the status to Generating first and only then to Extracting and Extracted,
so the run takes the transitions Uploaded-to-Generating and
Generating-to-Extracting, neither of which is an edge of the claimed state
machine. -/
theorem c2_generating_entered_from_uploaded :
    freshState.job.status = .uploaded
    ∧ (generate_questions_from_file 1 "f" freshState c2env).map (fun pr => pr.1.statusLog)
      = some [(.generating, none), (.extracting, none), (.extracted, none), (.ready, none)]
    ∧ claimedEdge .uploaded .generating = false
    ∧ claimedEdge .generating .extracting = false :=
  ⟨rfl, rfl, rfl, rfl⟩

/-- C2 (amended): a generation run's first status update is Generating,
whatever the job's prior status (also from Uploaded or Failed, so Failed is
not terminal); when the text is not yet extracted, the job then moves
through Extracting and Extracted inside the generation call, and ends
Ready on success. -/
theorem c2_generation_status_trace (fuel : Nat) (fid : String) (st : PState)
    (env : Env) (text : String) (chunks : List String)
    (hpath : st.job.extracted_text_path = none)
    (hpdf : env.pdfExists = true)
    (hraw : env.extractRaw = .ok text)
    (hnb : pyStrip text.data ≠ [])
    (hc : chunk_text fuel text env.maxChunkSize env.chunkOverlap = some chunks)
    (hne : aggregateDrafts fid env chunks ≠ []) :
    ∃ stF, generate_questions_from_file fuel fid st env
        = some (stF, .ok (aggregateDrafts fid env chunks))
      ∧ stF.statusLog = st.statusLog
          ++ [(.generating, none), (.extracting, none), (.extracted, none), (.ready, none)]
      ∧ stF.job.status = .ready := by
  obtain ⟨stF, h, h1, _, _, h5⟩ :=
    genFromFile_unextracted_ok fuel fid st env text chunks hpath hpdf hraw hnb hc hne
  exact ⟨stF, h, h5, h1⟩

/-- C2 witness: the trace theorem applied to a Failed job that was never
extracted, with every hypothesis discharged at the concrete input. -/
theorem c2_generation_status_trace_witness :
    ∃ stF, generate_questions_from_file 1 "f" c2failedState c2env
        = some (stF, .ok (aggregateDrafts "f" c2env ["hello"]))
      ∧ stF.statusLog = c2failedState.statusLog
          ++ [(.generating, none), (.extracting, none), (.extracted, none), (.ready, none)]
      ∧ stF.job.status = .ready :=
  c2_generation_status_trace 1 "f" c2failedState c2env "hello" ["hello"]
    rfl rfl rfl (by decide) rfl (by decide)

/-- C3: the claim's termination property fails on the code.  With
parameters satisfying 0 < overlap < maxSize (overlap 5, maxSize 10), the
chunk_text loop on this input reaches window start 1, chooses the paragraph
break at position 6 as the window end, and restarts at 6 - 5 = 1 for ever:
no fuel bound suffices, i.e. the Python while-loop never terminates, and no
defensive guard in the code prevents it. -/
theorem c3_chunk_text_nonterminating :
    (0 : Int) < 5 ∧ (5 : Int) < 10
    ∧ ¬ ∃ (fuel : Nat) (res : List String), chunk_text fuel c3text 10 5 = some res := by
  refine ⟨by decide, by decide, ?_⟩
  rintro ⟨fuel, res, h⟩
  cases fuel with
  | zero =>
    rw [show chunk_text 0 c3text 10 5 = none from rfl] at h
    exact Option.noConfusion h
  | succ n =>
    rw [show chunk_text (n + 1) c3text 10 5
          = chunkLoop c3text.data 10 5 n 1 ["ABCDEF"] from rfl] at h
    rw [c3_loop_stuck n ["ABCDEF"]] at h
    exact Option.noConfusion h

/-- C4 counterexample: requesting generation on a job whose status is
already Generating (and whose output is not yet persisted) is not treated
as a conflict: the route re-runs the whole pipeline and mutates the job
record - status becomes Ready and the progress counters change. -/
theorem c4_generate_on_generating_mutates_job :
    genState.job.status = .generating
    ∧ (generate_questions_route 1 "f" genState c4env).map
        (fun pr => (pr.1.job.status, pr.1.job.progress_current,
                    pr.1.job.progress_total, pr.2))
      = some (ProcessingStatus.ready, 1, 1, Except.ok [c4draft])
    ∧ (generate_questions_route 1 "f" genState c4env).map (fun pr => pr.1.job)
        ≠ some genState.job :=
  ⟨rfl, rfl, by decide⟩

/-- C4 (amended): the route performs no status check at all.  Its only
guard is the persisted-output cache check: with no stored set the route is
literally the full pipeline call (also when the job is already Generating),
and with a stored set it returns that set without touching anything. -/
theorem c4_no_conflict_detection (fuel : Nat) (fid : String) (st st' : PState)
    (env env' : Env) (qs : List Json)
    (h : get_generated_questions st = .ok none)
    (h' : get_generated_questions st' = .ok (some qs)) :
    generate_questions_route fuel fid st env = generate_questions_from_file fuel fid st env
    ∧ generate_questions_route fuel fid st' env' = some (st', .ok qs) := by
  constructor
  · unfold generate_questions_route
    rw [h]
  · unfold generate_questions_route
    rw [h']

/-- C4 witness: the amended theorem applied to a Generating job with no
persisted output and to a Ready job with one. -/
theorem c4_no_conflict_detection_witness :
    generate_questions_route 1 "f" genState c4env
        = generate_questions_from_file 1 "f" genState c4env
    ∧ generate_questions_route 1 "f" readyState baseEnv = some (readyState, .ok c7qs) :=
  c4_no_conflict_detection 1 "f" genState readyState c4env baseEnv c7qs rfl rfl

/-- C5 counterexample: with 2 chunks where only chunk 1 raises
ProviderError and chunk 2 succeeds (returning an empty questions array),
not all chunks failed, yet the job does NOT reach Ready: the aggregate is
empty, so the run ends Failed. -/
theorem c5_partial_failure_can_still_fail :
    c5cxEnv.llm 1 "DEFG" = .ok emptyQuestionsRaw
    ∧ llmParse emptyQuestionsRaw
        = Except.ok (Json.obj (JsonObj.cons "questions" (Json.arr JsonArr.nil) JsonObj.nil))
    ∧ (generate_questions_from_file 9 "f" (extractedState "ABCDEFG") c5cxEnv).map
        (fun pr => (pr.1.job.status, pr.2))
      = some (ProcessingStatus.failed, Except.error noQuestionsMsg) :=
  ⟨rfl, rfl, rfl⟩

/-- C5 (amended): per-chunk failures are caught at the chunk boundary and
skipped while the loop continues: provided the successful chunks together
yield at least one draft, the job reaches Ready with exactly the
concatenation, in chunk order, of the per-chunk contributions (failing
chunks contributing nothing), the gateway is invoked once per chunk index
in order, and progress is updated to (i+1, N) with its message before
chunk i's gateway invocation, for every one of the N chunk positions. -/
theorem c5_partial_failure_resilience (fuel : Nat) (fid : String) (st : PState)
    (env : Env) (text : String) (chunks : List String) (p : String)
    (hpath : st.job.extracted_text_path = some p)
    (hfile : st.extractedFile = some text)
    (hne0 : text ≠ "")
    (hc : chunk_text fuel text env.maxChunkSize env.chunkOverlap = some chunks)
    (hne : aggregateDrafts fid env chunks ≠ []) :
    ∃ stF, generate_questions_from_file fuel fid st env
        = some (stF, .ok (aggregateDrafts fid env chunks))
      ∧ stF.job.status = .ready
      ∧ aggregateDrafts fid env chunks
          = (chunks.enum.map (fun q => chunkDrafts fid env q.1 q.2)).flatten
      ∧ (∀ i c e, env.llm i c = .error e → chunkDrafts fid env i c = [])
      ∧ stF.gatewayLog = st.gatewayLog ++ List.range chunks.length
      ∧ stF.progressLog = st.progressLog
          ++ (0, chunks.length, some "Starting question generation...")
          :: (List.range chunks.length).map
               (fun i => (i + 1, chunks.length, some (chunkMsg (i + 1) chunks.length))) := by
  obtain ⟨stF, h, h1, _, _, _, h5, h6, _⟩ :=
    genFromFile_extracted_ok fuel fid st env text chunks p hpath hfile hne0 hc hne
  exact ⟨stF, h, h1, rfl,
    fun i c e hllm => chunkDrafts_of_llm_error fid env i c e hllm, h5, h6⟩

/-- C5 witness: the spec's own example - 5 chunks with chunks 2 and 4
(indices 1 and 3) raising ProviderError - run at the concrete input. -/
theorem c5_partial_failure_resilience_witness :
    ∃ stF, generate_questions_from_file 9 "f" c5state c5env
        = some (stF, .ok (aggregateDrafts "f" c5env c5chunks))
      ∧ stF.job.status = .ready
      ∧ aggregateDrafts "f" c5env c5chunks
          = (c5chunks.enum.map (fun q => chunkDrafts "f" c5env q.1 q.2)).flatten
      ∧ (∀ i c e, c5env.llm i c = .error e → chunkDrafts "f" c5env i c = [])
      ∧ stF.gatewayLog = c5state.gatewayLog ++ List.range c5chunks.length
      ∧ stF.progressLog = c5state.progressLog
          ++ (0, c5chunks.length, some "Starting question generation...")
          :: (List.range c5chunks.length).map
               (fun i => (i + 1, c5chunks.length, some (chunkMsg (i + 1) c5chunks.length))) :=
  c5_partial_failure_resilience 9 "f" c5state c5env "ABCDEFGHIJKLMNOP" c5chunks "f.txt"
    rfl rfl (by decide) rfl (by decide)

/-- C6: when every chunk fails, the aggregate is empty, the ValueError is
raised and caught, and the job ends Failed with the no-valid-questions
message recorded as its error; neither the output blob nor the questions
path is written. -/
theorem c6_full_failure_yields_failed_no_blob (fuel : Nat) (fid : String)
    (st : PState) (env : Env) (text : String) (chunks : List String) (p : String)
    (hpath : st.job.extracted_text_path = some p)
    (hfile : st.extractedFile = some text)
    (hne0 : text ≠ "")
    (hc : chunk_text fuel text env.maxChunkSize env.chunkOverlap = some chunks)
    (hfail : ∀ q ∈ chunks.enum, chunkFailed env q.1 q.2 = true) :
    ∃ stF, generate_questions_from_file fuel fid st env
        = some (stF, .error noQuestionsMsg)
      ∧ stF.job.status = .failed
      ∧ stF.job.error = some ("Question generation failed: " ++ noQuestionsMsg)
      ∧ stF.blob = st.blob
      ∧ stF.job.generated_questions_path = st.job.generated_questions_path := by
  have hempty := aggregateDrafts_eq_nil fid env chunks hfail
  have hget : pyTruthyText (get_extracted_text (update_status st .generating none))
      = some text := by
    simp [pyTruthyText, get_extracted_text, update_status, update_status_job,
      pyTruthyStr, hpath, hfile, hne0]
  have hred : generate_questions_from_file fuel fid st env
      = runGenLoop fuel fid (update_status st .generating none) env text := by
    unfold generate_questions_from_file
    simp only [hget]
  rw [hred]
  obtain ⟨stF, heq, h1, h2, h3, h4, _, _⟩ :=
    runGenLoop_fail fuel fid (update_status st .generating none) env text chunks hc hempty
  refine ⟨stF, heq, h1, h2, ?_, ?_⟩
  · rw [h3]; simp [update_status]
  · rw [h4]; simp [update_status, update_status_job, pyTruthyStr]

/-- C6 witness: all five chunks raising ProviderError at the concrete
input; the initial state has no blob, so none is persisted. -/
theorem c6_full_failure_witness :
    ∃ stF, generate_questions_from_file 9 "f" c5state c6env
        = some (stF, .error noQuestionsMsg)
      ∧ stF.job.status = .failed
      ∧ stF.job.error = some ("Question generation failed: " ++ noQuestionsMsg)
      ∧ stF.blob = c5state.blob
      ∧ stF.job.generated_questions_path = c5state.job.generated_questions_path :=
  c6_full_failure_yields_failed_no_blob 9 "f" c5state c6env "ABCDEFGHIJKLMNOP"
    c5chunks "f.txt" rfl rfl (by decide) rfl (by decide)

/-- C7: invoking the generation route on a job whose generated set is
persisted returns the stored set and the state completely unchanged - in
particular the gateway log is untouched (the gateway is not invoked) and
the blob is exactly as stored. -/
theorem c7_ready_returns_cached_without_gateway (fuel : Nat) (fid : String)
    (st : PState) (env : Env) (qs : List Json) (p : String)
    (_hready : st.job.status = .ready)
    (hpath : st.job.generated_questions_path = some p)
    (hblob : st.blob = some (Json.obj (JsonObj.cons "questions"
        (Json.arr (JsonArr.ofList qs)) JsonObj.nil))) :
    generate_questions_route fuel fid st env = some (st, .ok qs) := by
  have hget : get_generated_questions st = .ok (some qs) := by
    unfold get_generated_questions
    rw [hpath, hblob]
    simp [getItemQuestions, JsonObj.lookup, JsonArr.toList_ofList]
  unfold generate_questions_route
  rw [hget]

/-- C7 witness: the cached-return theorem at the concrete Ready job. -/
theorem c7_ready_returns_cached_witness :
    generate_questions_route 1 "f" readyState baseEnv = some (readyState, .ok c7qs) :=
  c7_ready_returns_cached_without_gateway 1 "f" readyState baseEnv c7qs "f.json"
    rfl rfl rfl

/-- C8: for the prose-and-fence-wrapped raw response, normalization
recovers exactly the document that parsing the bare JSON object directly
yields; the leading and trailing commentary does not abort the chunk. -/
theorem c8_prose_wrapped_json_normalizes_same :
    raw8 = "Here you go:\n```json\n" ++ bare8 ++ "\n```\nHope this helps!"
    ∧ llmParse raw8 = Except.ok bare8doc
    ∧ jsonLoads bare8 = some bare8doc :=
  ⟨rfl, rfl, rfl⟩

/-- C9: a status update without an error argument changes only the status
field of the job record, so the error detail is never cleared: a job that
once Failed with a stored error string and is then successfully re-run
ends Ready with the stale error string still in place. -/
theorem c9_error_never_cleared (j : Job) (s : ProcessingStatus)
    (fuel : Nat) (fid : String) (st : PState) (env : Env)
    (text : String) (chunks : List String) (p e : String)
    (hpath : st.job.extracted_text_path = some p)
    (hfile : st.extractedFile = some text)
    (hne0 : text ≠ "")
    (hc : chunk_text fuel text env.maxChunkSize env.chunkOverlap = some chunks)
    (hne : aggregateDrafts fid env chunks ≠ [])
    (herr : st.job.error = some e) :
    update_status_job j s none = { j with status := s }
    ∧ ∃ stF, generate_questions_from_file fuel fid st env
        = some (stF, .ok (aggregateDrafts fid env chunks))
      ∧ stF.job.status = .ready
      ∧ stF.job.error = some e := by
  constructor
  · simp [update_status_job, pyTruthyStr]
  · obtain ⟨stF, h, h1, h2, _⟩ :=
      genFromFile_extracted_ok fuel fid st env text chunks p hpath hfile hne0 hc hne
    exact ⟨stF, h, h1, by rw [h2, herr]⟩

/-- C9 witness: the frame theorem applied to a Failed job carrying the
stored error "boom" that is successfully re-run to Ready. -/
theorem c9_error_never_cleared_witness :
    update_status_job uploadedJob .extracting none
        = { uploadedJob with status := .extracting }
    ∧ ∃ stF, generate_questions_from_file 1 "f" failedState c2env
        = some (stF, .ok (aggregateDrafts "f" c2env ["hello"]))
      ∧ stF.job.status = .ready
      ∧ stF.job.error = some "boom" :=
  c9_error_never_cleared uploadedJob .extracting 1 "f" failedState c2env
    "hello" ["hello"] "f.txt" "boom" rfl rfl (by decide) rfl (by decide) rfl

/-- C10: this raw response is a single syntactically valid JSON object
(json.loads accepts it whole, questions included), but its first string
value contains a right brace; the brace-depth scan does not track string
literals, so depth returns to zero at index 10 - inside the string and
before the object's true end at index 47 - and normalization fails on the
truncated prefix instead of returning the drafts direct parsing yields. -/
theorem c10_brace_scan_breaks_on_string_brace :
    llmParse raw10 = Except.error "Invalid JSON response from LLM"
    ∧ jsonLoads raw10 = some raw10doc
    ∧ getItemQuestions raw10doc
        = Except.ok (Json.arr (JsonArr.cons
            (Json.obj (JsonObj.cons "question" (Json.str "ok") JsonObj.nil))
            JsonArr.nil))
    ∧ braceScan raw10.data = 10
    ∧ raw10.length = 48 :=
  ⟨rfl, rfl, rfl, rfl, rfl⟩

end AQBS
